import Mathlib

/-!
# WhisperMaster2000: the host interface shim and the tab style

A shallow embedding of `src/wm2000/base/plugin_interface.cpp` (the `ts3plugin_*`
entry points that the voice-chat client calls) and of
`src/wm2000/ui/StyleSheets.h` (`CustomTabStyle::sizeFromContents`).

* C memory is a list of live blocks; a pointer is `none` (NULL) or a block
  with an offset.  Library calls that the C standard leaves undefined
  (a store through NULL, a read past the end of an object, a double `free`)
  yield `none`.
* The objects whose code is not in the source tree (`plugin_base`,
  `error_handler`, the host callbacks in `ts3Functions`) are a parameter:
  an arbitrary function from the call and the reachable state to a reply,
  which is either a normal return or a C++ exception.
* An entry point is a function from the state to an `Outcome`: a normal
  return, an exception that leaves the entry point, or undefined behaviour.
-/

namespace WM2000

/-! ## C memory -/

/-- Address of a byte: the block it lies in and the offset inside the block. -/
structure Addr where
  block : Nat
  off : Nat
  deriving DecidableEq, Repr

/-- A C pointer value; `none` is NULL. -/
abbrev Ptr := Option Addr

/-- The live blocks: block identifier and contents (one `Nat` per `char`). -/
abbrev Heap := List (Nat × List Nat)

namespace Heap

/-- Contents of a live block. -/
def block (h : Heap) (b : Nat) : Option (List Nat) :=
  match h with
  | [] => none
  | (b', bytes) :: rest => if b' = b then some bytes else block rest b

/-- Replace the contents of block `b`. -/
def set (h : Heap) (b : Nat) (bytes : List Nat) : Heap :=
  match h with
  | [] => []
  | (b', old) :: rest =>
    if b' = b then (b', bytes) :: set rest b bytes else (b', old) :: set rest b bytes

/-- Drop block `b` from the live blocks. -/
def erase (h : Heap) (b : Nat) : Heap :=
  match h with
  | [] => []
  | (b', old) :: rest => if b' = b then erase rest b else (b', old) :: erase rest b

/-- An identifier that no live block carries. -/
def fresh (h : Heap) : Nat :=
  (h.map Prod.fst).foldr max 0 + 1

end Heap

/-- What the C runtime answers to `malloc(sz)` in a given heap: `none` when it
returns NULL, otherwise the indeterminate initial contents of the new block
(byte `i` of the block is `junk i`). -/
abbrev Allocator := Heap → Nat → Option (Nat → Nat)

/-- The call `malloc(sz)`: NULL, or a pointer to the start of a new block of `sz` bytes. -/
def malloc (alloc : Allocator) (h : Heap) (sz : Nat) : Heap × Ptr :=
  match alloc h sz with
  | none => (h, none)
  | some junk => ((h.fresh, (List.range sz).map junk) :: h, some ⟨h.fresh, 0⟩)

/-- The call `free(p)`: nothing for NULL, releases the block when `p` is the start of a
live block, undefined otherwise. -/
def free (h : Heap) (p : Ptr) : Option Heap :=
  match p with
  | none => some h
  | some a =>
    if a.off = 0 ∧ (h.block a.block).isSome then some (h.erase a.block) else none

/-- Source operand of a string function: a string literal of the program
(its array, terminator included) or a pointer into memory. -/
inductive Src where
  | lit (bytes : List Nat)
  | mem (p : Ptr)
  deriving DecidableEq, Repr

/-- The bytes from the source pointer to the end of its object. -/
def load (h : Heap) (src : Src) : Option (List Nat) :=
  match src with
  | .lit bytes => some bytes
  | .mem none => none
  | .mem (some a) =>
    match h.block a.block with
    | none => none
    | some bytes => if a.off ≤ bytes.length then some (bytes.drop a.off) else none

/-- The characters of the C string at the head of `bytes`: everything before
the first NUL; undefined when the object holds no NUL. -/
def cstring (bytes : List Nat) : Option (List Nat) :=
  if 0 ∈ bytes then some (bytes.takeWhile fun c => decide (c ≠ 0)) else none

/-- The C string a source operand points to. -/
def stringAt (h : Heap) (src : Src) : Option (List Nat) :=
  (load h src).bind cstring

/-- The call `strlen(src)`. -/
def strlen (h : Heap) (src : Src) : Option Nat :=
  (stringAt h src).map List.length

/-- Write `data` at `dest`; undefined through NULL, into a dead block or past
the end of the block. -/
def store (h : Heap) (dest : Ptr) (data : List Nat) : Option Heap :=
  match dest with
  | none => none
  | some a =>
    match h.block a.block with
    | none => none
    | some bytes =>
      if a.off + data.length ≤ bytes.length then
        some (h.set a.block (bytes.take a.off ++ data ++ bytes.drop (a.off + data.length)))
      else none

/-- Whether the `n` bytes written at `dest` and the `m` bytes read at the
source intersect (the case the string functions leave undefined). -/
def overlaps (dest : Ptr) (n : Nat) (src : Src) (m : Nat) : Bool :=
  match dest, src with
  | some d, .mem (some s) =>
    decide (d.block = s.block ∧ d.off < s.off + m ∧ s.off < d.off + n)
  | _, _ => false

/-- The call `strncpy(dest, src, n)`: exactly `n` bytes are written, the characters of
`src` up to its NUL and then NUL padding; when `src` has `n` or more characters
before its NUL only the first `n` are written and no NUL. -/
def strncpy (h : Heap) (dest : Ptr) (src : Src) (n : Nat) : Option Heap :=
  match load h src with
  | none => none
  | some bytes =>
    let s := bytes.takeWhile fun c => decide (c ≠ 0)
    if overlaps dest n src (min n (s.length + 1)) then none
    else if n ≤ s.length then store h dest (s.take n)
    else if s.length < bytes.length then store h dest (s ++ List.replicate (n - s.length) 0)
    else none

/-- The pointer `dest + k` on a `char*`. -/
def Ptr_add (p : Ptr) (k : Nat) : Ptr :=
  p.map fun a => ⟨a.block, a.off + k⟩

/-- The call `strcpy_s(dest, destSize, src)` of the Windows C runtime: the string and
its NUL are copied when they fit; a NULL operand or a destination that is too
small invokes the invalid-parameter handler, which ends the process.  The debug
runtime overwrites the rest of the destination with a fill byte (`fill`). -/
def strcpy_s (fill : Option Nat) (h : Heap) (dest : Ptr) (destSize : Nat) (src : Src) :
    Option Heap :=
  match stringAt h src with
  | none => none
  | some s =>
    if overlaps dest (s.length + 1) src (s.length + 1) then none
    else if destSize ≤ s.length then none
    else
      match fill with
      | none => store h dest (s ++ [0])
      | some v => store h dest (s ++ [0] ++ List.replicate (destSize - (s.length + 1)) v)

/-- The two build variants of the source (`#ifdef _WIN32`). -/
inductive Platform where
  | win32 (debugFill : Option Nat)
  | other
  deriving DecidableEq, Repr

/-- The `_strcpy(dest, destSize, src)` of the source:
`strcpy_s(dest, destSize, src)` under `_WIN32`, otherwise
`{ strncpy(dest, src, destSize-1); (dest)[destSize-1] = 0; }`.
With `destSize = 0` the unsigned `destSize-1` is the largest `size_t`, and the
copy runs past every object. -/
def _strcpy (pf : Platform) (h : Heap) (dest : Ptr) (destSize : Nat) (src : Src) :
    Option Heap :=
  match pf with
  | .win32 fill => strcpy_s fill h dest destSize src
  | .other =>
    if destSize = 0 then none
    else
      match strncpy h dest src (destSize - 1) with
      | none => none
      | some h1 => store h1 (Ptr_add dest (destSize - 1)) [0]

/-- The bytes of an ASCII literal, without terminator. -/
def ascii (s : String) : List Nat :=
  s.toList.map Char.toNat

/-! ## Exceptions, calls that leave the shim, and the state -/

/-- A C++ exception, by the handler of the source that takes it:
`catch (std::exception &e)`, `catch (boost::exception &e)`, `catch (...)`. -/
inductive Exc where
  | std (what : String)
  | boost (info : String)
  | unknown (tag : Nat)
  deriving DecidableEq, Repr

/-- Methods of `ts3Functions`, the table of host callbacks, that the shim calls. -/
inductive HostCall where
  | getAppPath (maxLen : Nat)
  | getResourcesPath (maxLen : Nat)
  | getConfigPath (maxLen : Nat)
  | getPluginPath (maxLen : Nat) (pluginID : Ptr)
  deriving DecidableEq, Repr

/-- Methods of `cErrHandler` (class `error_handler`) that the shim calls.
`init` is also handed `ts3Functions.logMessage`, a constant of the surroundings.
`error_log` has three overloads: with a `std::exception`, with a
`boost::exception`, and with the function signature alone (`e = none`). -/
inductive ErrCall where
  | init (path : List Nat)
  | remove_log_file
  | error_log (funcsig : String) (e : Option Exc)
  deriving DecidableEq, Repr

/-- Methods of `cPluginBase` (class `plugin_base`) that the shim calls.
`Init` is also handed `ts3Functions`, a constant of the surroundings. -/
inductive BaseCall where
  | Init (path : List Nat) (pluginID : Ptr)
  | Close
  | open_configure_ui
  | infoData (serverConnectionHandlerID id type : Nat) (data : Ptr)
  | InitMenu (menuItems : Ptr)
  | initHotkeys (hotkeys : Ptr)
  | onConnect (serverConnectionHandlerID : Nat) (newStatus : Int)
  | onUpdateClientEvent (serverConnectionHandlerID clientID channelID : Nat)
  | onTalkStatusChangeEvent (serverConnectionHandlerID : Nat) (status isReceivedWhisper : Int)
      (clientID : Nat)
  | onMenuItemEvent (serverConnectionHandlerID type : Nat) (menuItemID : Int)
      (selectedItemID : Nat)
  | onHotkeyEvent (keyword : Ptr)
  deriving DecidableEq, Repr

/-- A call from the shim to an object whose code lies outside the source tree. -/
inductive Call where
  | host (c : HostCall)
  | err (c : ErrCall)
  | base (c : BaseCall)
  deriving DecidableEq, Repr

/-- How such a call ends: a normal return (`out` is what the buffer that the
caller handed in holds afterwards, `[]` when there is none), or an exception.
Either way the callee may have changed memory and the state `b` of the outside
objects. -/
inductive Reply (β : Type) where
  | ok (h : Heap) (b : β) (out : List Nat)
  | raise (e : Exc) (h : Heap) (b : β)
  deriving DecidableEq, Repr

/-- Everything the source leaves to its surroundings: the build variant, the
constants of headers that are not in the source tree, the C allocator, and the
behaviour of the outside objects. -/
structure Env (β : Type) where
  pf : Platform
  PATH_BUFSIZE : Nat
  PLUGIN_MENU_BUFSZ : Nat
  INVALID_CHANNEL_ID : Nat
  alloc : Allocator
  reply : Call → Heap → β → Reply β

/-- An argument of a `printf` call. -/
inductive Arg where
  | num (n : Int)
  | str (bytes : List Nat)
  | ptr (p : Ptr)
  deriving DecidableEq, Repr

/-- The state the entry points work on: memory, the outside objects, the
globals `pluginID` and `pPluginPath`, and two records kept for the
statements below: the calls made to outside objects, in order, each with the
exception it raised, if any, and the `printf` calls made. -/
structure State (β : Type) where
  heap : Heap
  outside : β
  pluginID : Ptr
  pPluginPath : List Nat
  trace : List (Call × Option Exc)
  stdout : List (String × List Arg)
  deriving DecidableEq, Repr

/-- Result of running an entry point: it returns to the host, an exception
leaves it, or the behaviour is undefined. -/
inductive Outcome (σ α : Type) where
  | ret (a : α) (s : σ)
  | throw (e : Exc) (s : σ)
  | undefined
  deriving DecidableEq, Repr

/-- A statement sequence of the source: a function from the state to an outcome. -/
def M (σ α : Type) : Type := σ → Outcome σ α

namespace M

/-- Sequencing: an exception or undefined behaviour ends the sequence. -/
def seq {σ α γ : Type} (m : M σ α) (f : α → M σ γ) : M σ γ := fun s =>
  match m s with
  | .ret a s1 => f a s1
  | .throw e s1 => .throw e s1
  | .undefined => .undefined

/-- A `try { body } catch ... { handler }` statement. -/
def tryCatch {σ α : Type} (body : M σ α) (handler : Exc → M σ α) : M σ α := fun s =>
  match body s with
  | .ret a s1 => .ret a s1
  | .throw e s1 => handler e s1
  | .undefined => .undefined

end M

instance {σ : Type} : Monad (M σ) where
  pure a := fun s => .ret a s
  bind := M.seq

/-- The line `#define DEBUG_TSIF 1`. -/
def DEBUG_TSIF : Nat := 1

/-- Read the state. -/
def getState {β : Type} : M (State β) (State β) := fun s => .ret s s

/-- The call `printf(fmt, args...)`: recorded, not rendered. -/
def printf {β : Type} (fmt : String) (args : List Arg) : M (State β) Unit := fun s =>
  .ret () { s with stdout := s.stdout ++ [(fmt, args)] }

/-- A call to an outside object. -/
def call {β : Type} (E : Env β) (c : Call) : M (State β) (List Nat) := fun s =>
  match E.reply c s.heap s.outside with
  | .ok h b out =>
    .ret out { s with heap := h, outside := b, trace := s.trace ++ [(c, none)] }
  | .raise e h b =>
    .throw e { s with heap := h, outside := b, trace := s.trace ++ [(c, some e)] }

/-- The three handlers that follow every `try` block of the source:
`catch (std::exception &e)    { cErrHandler.error_log(__FUNCSIG__, e); }`,
`catch (boost::exception &e)  { cErrHandler.error_log(__FUNCSIG__, e); }`,
`catch (...)                  { cErrHandler.error_log(__FUNCSIG__); }`.
`funcsig` stands for `__FUNCSIG__`, the signature of the enclosing function. -/
def handlers {β : Type} (E : Env β) (funcsig : String) (e : Exc) : M (State β) Unit :=
  match e with
  | .std what => do let _ ← call E (.err (.error_log funcsig (some (.std what))))
  | .boost info => do let _ ← call E (.err (.error_log funcsig (some (.boost info))))
  | .unknown _ => do let _ ← call E (.err (.error_log funcsig none))

/-! ## The entry points of `plugin_interface.cpp` -/

/-- Store to the global `pluginID`. -/
def setPluginID {β : Type} (p : Ptr) : M (State β) Unit := fun s =>
  .ret () { s with pluginID := p }

/-- Store to the global array `pPluginPath`. -/
def setPluginPath {β : Type} (bytes : List Nat) : M (State β) Unit := fun s =>
  .ret () { s with pPluginPath := bytes }

/-- The statement `p = malloc(sz)`. -/
def c_malloc {β : Type} (E : Env β) (sz : Nat) : M (State β) Ptr := fun s =>
  .ret (malloc E.alloc s.heap sz).2 { s with heap := (malloc E.alloc s.heap sz).1 }

/-- The statement `free(p)`. -/
def c_free {β : Type} (p : Ptr) : M (State β) Unit := fun s =>
  match free s.heap p with
  | none => .undefined
  | some h => .ret () { s with heap := h }

/-- The statement `_strcpy(dest, destSize, src)`. -/
def c_strcpy {β : Type} (E : Env β) (dest : Ptr) (destSize : Nat) (src : Src) :
    M (State β) Unit := fun s =>
  match _strcpy E.pf s.heap dest destSize src with
  | none => .undefined
  | some h => .ret () { s with heap := h }

/-- The expression `strlen(p)`. -/
def c_strlen {β : Type} (p : Ptr) : M (State β) Nat := fun s =>
  match strlen s.heap (.mem p) with
  | none => .undefined
  | some n => .ret n s

/-- The conversion `std::string(buf)` of a `char` array: its characters before
the first NUL. -/
def std_string (buf : List Nat) : List Nat :=
  buf.takeWhile fun c => decide (c ≠ 0)

/-- Entry point `int ts3plugin_init()`.  The four path queries fill the
buffers handed in; `appPath`, `resourcesPath` and `configPath` are locals,
`pPluginPath` is the global. -/
def ts3plugin_init {β : Type} (E : Env β) : M (State β) Int := do
  if DEBUG_TSIF ≠ 0 then printf "PLUGIN: init\n" []
  let appPath ← call E (.host (.getAppPath E.PATH_BUFSIZE))
  let resourcesPath ← call E (.host (.getResourcesPath E.PATH_BUFSIZE))
  let configPath ← call E (.host (.getConfigPath E.PATH_BUFSIZE))
  let s0 ← getState
  let written ← call E (.host (.getPluginPath E.PATH_BUFSIZE s0.pluginID))
  setPluginPath written
  let s1 ← getState
  if DEBUG_TSIF ≠ 0 then
    printf "PLUGIN: App path: %s\nResources path: %s\nConfig path: %s\nPlugin path: %s\n"
      [.str appPath, .str resourcesPath, .str configPath, .str s1.pPluginPath]
  let _ ← call E (.err (.init (std_string s1.pPluginPath)))
  let _ ← call E (.err .remove_log_file)
  let _ ← call E (.base (.Init (std_string s1.pPluginPath) s1.pluginID))
  return 0

/-- Entry point `void ts3plugin_shutdown()`. -/
def ts3plugin_shutdown {β : Type} (E : Env β) : M (State β) Unit :=
  M.tryCatch
    (do
      if DEBUG_TSIF ≠ 0 then printf "PLUGIN: start shutdown\n" []
      let _ ← call E (.base .Close)
      if DEBUG_TSIF ≠ 0 then printf "PLUGIN: shutdown...\n" []
      let s ← getState
      if s.pluginID ≠ none then
        c_free s.pluginID
        setPluginID none
      if DEBUG_TSIF ≠ 0 then printf "PLUGIN: shutdown done\n" [])
    (handlers E "ts3plugin_shutdown")

/-- Entry point `void ts3plugin_configure(void* handle, void* qParentWidget)`. -/
def ts3plugin_configure {β : Type} (E : Env β) (handle qParentWidget : Ptr) :
    M (State β) Unit := do
  if DEBUG_TSIF ≠ 0 then
    printf "PLUGIN: configure handle==0x%llX / qParentWidget==0x%llX\n"
      [.ptr handle, .ptr qParentWidget]
  let _ ← call E (.base .open_configure_ui)

/-- Entry point `void ts3plugin_registerPluginID(const char* id)`.
`sz` is a `size_t`; `strlen(id) + 1` cannot wrap, the string and its NUL being
part of one object. -/
def ts3plugin_registerPluginID {β : Type} (E : Env β) (id : Ptr) : M (State β) Unit := do
  let n ← c_strlen id
  let sz := n + 1
  let p ← c_malloc E sz
  setPluginID p
  c_strcpy E p sz (.mem id)
  if DEBUG_TSIF ≠ 0 then printf "PLUGIN: registerPluginID: %s\n" [.ptr p]

/-- Entry point `void ts3plugin_infoData(uint64, uint64, enum PluginItemType, char**)`. -/
def ts3plugin_infoData {β : Type} (E : Env β) (serverConnectionHandlerID id type : Nat)
    (data : Ptr) : M (State β) Unit := do
  let _ ← call E (.base (.infoData serverConnectionHandlerID id type data))

/-- Entry point `void ts3plugin_initMenus(struct PluginMenuItem*** menuItems,
char** menuIcon)`.  The cell `*menuIcon` belongs to the host: `icon0` is what it
holds on entry and the result is what it holds on return.  In the `try` block
the store to `*menuIcon` comes first and nothing after it raises an exception. -/
def ts3plugin_initMenus {β : Type} (E : Env β) (menuItems : Ptr) (icon0 : Ptr) :
    M (State β) Ptr := do
  let _ ← call E (.base (.InitMenu menuItems))
  M.tryCatch
    (do
      let icon ← c_malloc E E.PLUGIN_MENU_BUFSZ
      c_strcpy E icon E.PLUGIN_MENU_BUFSZ (.lit (ascii "phone.png" ++ [0]))
      return icon)
    (fun e => do
      handlers E "ts3plugin_initMenus" e
      return icon0)

/-- Entry point `void ts3plugin_initHotkeys(struct PluginHotkey*** hotkeys)`. -/
def ts3plugin_initHotkeys {β : Type} (E : Env β) (hotkeys : Ptr) : M (State β) Unit := do
  let _ ← call E (.base (.initHotkeys hotkeys))

/-- Entry point `ts3plugin_onConnectStatusChangeEvent`. -/
def ts3plugin_onConnectStatusChangeEvent {β : Type} (E : Env β)
    (serverConnectionHandlerID : Nat) (newStatus : Int) (_errorNumber : Nat) :
    M (State β) Unit := do
  let _ ← call E (.base (.onConnect serverConnectionHandlerID newStatus))

/-- Entry point `ts3plugin_onUpdateClientEvent`. -/
def ts3plugin_onUpdateClientEvent {β : Type} (E : Env β) (serverConnectionHandlerID : Nat)
    (clientID _invokerID : Nat) (_invokerName _invokerUniqueIdentifier : Ptr) :
    M (State β) Unit := do
  if DEBUG_TSIF ≠ 0 then printf "onUpdateClientEvent(clientID %d) => " [.num clientID]
  let _ ← call E (.base (.onUpdateClientEvent serverConnectionHandlerID clientID
    E.INVALID_CHANNEL_ID))

/-- Entry point `ts3plugin_onClientMoveEvent`. -/
def ts3plugin_onClientMoveEvent {β : Type} (E : Env β) (serverConnectionHandlerID : Nat)
    (clientID _oldChannelID newChannelID : Nat) (_visibility : Int) (_moveMessage : Ptr) :
    M (State β) Unit := do
  if DEBUG_TSIF ≠ 0 then
    printf "onClientMoveEvent (clientID %d, newChannelID %llu) => "
      [.num clientID, .num newChannelID]
  let _ ← call E (.base (.onUpdateClientEvent serverConnectionHandlerID clientID newChannelID))

/-- Entry point `ts3plugin_onClientMoveSubscriptionEvent`.  The source comments
the call with "channel id is unknown here, set to -1 to prevent update function
to overwrite the value" and passes `newChannelID`. -/
def ts3plugin_onClientMoveSubscriptionEvent {β : Type} (E : Env β)
    (serverConnectionHandlerID : Nat) (clientID _oldChannelID newChannelID : Nat)
    (_visibility : Int) : M (State β) Unit := do
  if DEBUG_TSIF ≠ 0 then
    printf "onSubscriptionEvent(clientID %d, newChannelID %llu) => "
      [.num clientID, .num newChannelID]
  let _ ← call E (.base (.onUpdateClientEvent serverConnectionHandlerID clientID newChannelID))

/-- Entry point `ts3plugin_onClientMoveTimeoutEvent`. -/
def ts3plugin_onClientMoveTimeoutEvent {β : Type} (E : Env β)
    (serverConnectionHandlerID : Nat) (clientID _oldChannelID newChannelID : Nat)
    (_visibility : Int) (_timeoutMessage : Ptr) : M (State β) Unit := do
  if DEBUG_TSIF ≠ 0 then
    printf "onClientMoveTimeoutEvent (clientID %d, newChannelID %llu) => "
      [.num clientID, .num newChannelID]
  let _ ← call E (.base (.onUpdateClientEvent serverConnectionHandlerID clientID newChannelID))

/-- Entry point `ts3plugin_onClientMoveMovedEvent`. -/
def ts3plugin_onClientMoveMovedEvent {β : Type} (E : Env β)
    (serverConnectionHandlerID : Nat) (clientID _oldChannelID newChannelID : Nat)
    (_visibility : Int) (_moverID : Nat) (_moverName _moverUniqueIdentifier _moveMessage : Ptr) :
    M (State β) Unit := do
  if DEBUG_TSIF ≠ 0 then
    printf "onClientMoveMovedEvent (clientID %d, newChannelID %llu) => "
      [.num clientID, .num newChannelID]
  let _ ← call E (.base (.onUpdateClientEvent serverConnectionHandlerID clientID newChannelID))

/-- Entry point `int ts3plugin_onServerErrorEvent(uint64, const char* errorMessage,
unsigned int error, const char* returnCode, const char* extraMessage)`. -/
def ts3plugin_onServerErrorEvent {β : Type} (serverConnectionHandlerID : Nat)
    (errorMessage : Ptr) (error : Nat) (returnCode _extraMessage : Ptr) :
    M (State β) Int := do
  if DEBUG_TSIF ≠ 0 then
    printf "PLUGIN: onServerErrorEvent %llu %s %d %s\n"
      [.num serverConnectionHandlerID, .ptr errorMessage, .num error,
        if returnCode ≠ none then .ptr returnCode else .str (ascii "")]
  if returnCode ≠ none then
    return 1
  return 0

/-- Entry point `ts3plugin_onTalkStatusChangeEvent`. -/
def ts3plugin_onTalkStatusChangeEvent {β : Type} (E : Env β)
    (serverConnectionHandlerID : Nat) (status isReceivedWhisper : Int) (clientID : Nat) :
    M (State β) Unit := do
  let _ ← call E (.base (.onTalkStatusChangeEvent serverConnectionHandlerID status
    isReceivedWhisper clientID))

/-- Entry point `ts3plugin_onMenuItemEvent`. -/
def ts3plugin_onMenuItemEvent {β : Type} (E : Env β) (serverConnectionHandlerID type : Nat)
    (menuItemID : Int) (selectedItemID : Nat) : M (State β) Unit := do
  let _ ← call E (.base (.onMenuItemEvent serverConnectionHandlerID type menuItemID
    selectedItemID))

/-- Entry point `void ts3plugin_onHotkeyEvent(const char* keyword)`. -/
def ts3plugin_onHotkeyEvent {β : Type} (E : Env β) (keyword : Ptr) : M (State β) Unit := do
  let _ ← call E (.base (.onHotkeyEvent keyword))

/-! ## The entry points that forward to `cPluginBase`, as one family -/

/-- A value an entry point hands back to the host. -/
inductive Val where
  | void
  | int (i : Int)
  | ptr (p : Ptr)
  deriving DecidableEq, Repr

/-- An invocation, by the host, of an entry point that calls a method of
`cPluginBase`. -/
inductive Invocation where
  | init
  | shutdown
  | configure (handle qParentWidget : Ptr)
  | infoData (serverConnectionHandlerID id type : Nat) (data : Ptr)
  | initMenus (menuItems icon0 : Ptr)
  | initHotkeys (hotkeys : Ptr)
  | onConnectStatusChangeEvent (serverConnectionHandlerID : Nat) (newStatus : Int)
      (errorNumber : Nat)
  | onUpdateClientEvent (serverConnectionHandlerID clientID invokerID : Nat)
      (invokerName invokerUniqueIdentifier : Ptr)
  | onClientMoveEvent (serverConnectionHandlerID clientID oldChannelID newChannelID : Nat)
      (visibility : Int) (moveMessage : Ptr)
  | onClientMoveSubscriptionEvent (serverConnectionHandlerID clientID oldChannelID
      newChannelID : Nat) (visibility : Int)
  | onClientMoveTimeoutEvent (serverConnectionHandlerID clientID oldChannelID
      newChannelID : Nat) (visibility : Int) (timeoutMessage : Ptr)
  | onClientMoveMovedEvent (serverConnectionHandlerID clientID oldChannelID
      newChannelID : Nat) (visibility : Int) (moverID : Nat)
      (moverName moverUniqueIdentifier moveMessage : Ptr)
  | onTalkStatusChangeEvent (serverConnectionHandlerID : Nat) (status isReceivedWhisper : Int)
      (clientID : Nat)
  | onMenuItemEvent (serverConnectionHandlerID type : Nat) (menuItemID : Int)
      (selectedItemID : Nat)
  | onHotkeyEvent (keyword : Ptr)
  deriving DecidableEq, Repr

/-- Run an invocation. -/
def Invocation.run {β : Type} (E : Env β) : Invocation → M (State β) Val
  | .init => do let r ← ts3plugin_init E; return .int r
  | .shutdown => do ts3plugin_shutdown E; return .void
  | .configure a b => do ts3plugin_configure E a b; return .void
  | .infoData a b c d => do ts3plugin_infoData E a b c d; return .void
  | .initMenus a b => do let r ← ts3plugin_initMenus E a b; return .ptr r
  | .initHotkeys a => do ts3plugin_initHotkeys E a; return .void
  | .onConnectStatusChangeEvent a b c => do
    ts3plugin_onConnectStatusChangeEvent E a b c; return .void
  | .onUpdateClientEvent a b c d e => do ts3plugin_onUpdateClientEvent E a b c d e; return .void
  | .onClientMoveEvent a b c d e f => do ts3plugin_onClientMoveEvent E a b c d e f; return .void
  | .onClientMoveSubscriptionEvent a b c d e => do
    ts3plugin_onClientMoveSubscriptionEvent E a b c d e; return .void
  | .onClientMoveTimeoutEvent a b c d e f => do
    ts3plugin_onClientMoveTimeoutEvent E a b c d e f; return .void
  | .onClientMoveMovedEvent a b c d e f g h i => do
    ts3plugin_onClientMoveMovedEvent E a b c d e f g h i; return .void
  | .onTalkStatusChangeEvent a b c d => do ts3plugin_onTalkStatusChangeEvent E a b c d; return .void
  | .onMenuItemEvent a b c d => do ts3plugin_onMenuItemEvent E a b c d; return .void
  | .onHotkeyEvent a => do ts3plugin_onHotkeyEvent E a; return .void

/-- The state an outcome ends in, if any. -/
def Outcome.final {σ α : Type} : Outcome σ α → Option σ
  | .ret _ s => some s
  | .throw _ s => some s
  | .undefined => none

/-- The value handed back to the host, if the entry point returns. -/
def Outcome.value {σ α : Type} : Outcome σ α → Option α
  | .ret a _ => some a
  | _ => none

/-- The exception that reaches the host, if one does. -/
def Outcome.escaped {σ α : Type} : Outcome σ α → Option Exc
  | .throw e _ => some e
  | _ => none

/-! ## Concrete surroundings for the examples -/

/-- A start state: one block, number 1, holding the string "ts3" and its NUL. -/
def s_start : State Unit :=
  { heap := [(1, ascii "ts3" ++ [0])], outside := (), pluginID := none,
    pPluginPath := List.replicate 8 0, trace := [], stdout := [] }

/-- Surroundings in which every outside call returns at once and `malloc`
succeeds, the new block filled with the byte 170. -/
def E_quiet : Env Unit :=
  { pf := .other, PATH_BUFSIZE := 8, PLUGIN_MENU_BUFSZ := 128,
    INVALID_CHANNEL_ID := 2 ^ 64 - 1,
    alloc := fun _ _ => some fun _ => 170,
    reply := fun c h b =>
      match c with
      | .host _ => .ok h b (ascii "/p" ++ List.replicate 6 0)
      | _ => .ok h b [] }

/-- Surroundings like `E_quiet` in which every method of `cPluginBase` raises a
`std::exception`. -/
def E_failing : Env Unit :=
  { E_quiet with
    reply := fun c h b =>
      match c with
      | .base _ => .raise (.std "plugin_base failed") h b
      | .host _ => .ok h b (ascii "/p" ++ List.replicate 6 0)
      | .err _ => .ok h b [] }

/-- The state `s_start` after the id "ts3" has been registered: `pluginID`
points to block 2, a copy of the id. -/
def s_registered : State Unit :=
  { s_start with
    heap := [(2, ascii "ts3" ++ [0]), (1, ascii "ts3" ++ [0])],
    pluginID := some ⟨2, 0⟩ }

/-- The state `s_registered` after a shutdown in which `Close` raised and the
handler logged. -/
def s_shutdown_failed : State Unit :=
  { s_registered with
    trace := [(.base .Close, some (.std "plugin_base failed")),
      (.err (.error_log "ts3plugin_shutdown" (some (.std "plugin_base failed"))), none)],
    stdout := [("PLUGIN: start shutdown\n", [])] }

/-- The state `s_start` after a hotkey event whose forwarded call raised. -/
def s_hotkey_failed : State Unit :=
  { s_start with trace := [(.base (.onHotkeyEvent none), some (.std "plugin_base failed"))] }

/-! ## The tab style of `StyleSheets.h` -/

/-- The class `QSize` of the GUI toolkit: a width `wd` and a height `ht`. -/
structure QSize where
  wd : Int
  ht : Int
  deriving DecidableEq, Repr

/-- The method `QSize::transpose()`: swaps the width and the height. -/
def QSize.transpose (s : QSize) : QSize :=
  { wd := s.ht, ht := s.wd }

/-- The type `QStyle::ContentsType`, an enumeration of the toolkit, as its integer value. -/
abbrev ContentsType := Nat

/-- The method `CustomTabStyle::sizeFromContents(type, option, size, widget)`.
`baseStyle` is `QProxyStyle::sizeFromContents`, `CT_TabBarTab` the enumeration
value `QStyle::CT_TabBarTab`; `Opt` and `Wid` stand for `const QStyleOption*` and
`const QWidget*`. -/
def CustomTabStyle.sizeFromContents {Opt Wid : Type} (CT_TabBarTab : ContentsType)
    (baseStyle : ContentsType → Opt → QSize → Wid → QSize)
    (type : ContentsType) (option : Opt) (size : QSize) (widget : Wid) : QSize :=
  let s := baseStyle type option size widget
  if type = CT_TabBarTab then s.transpose else s

/-! ## Statement sequences: evaluation rules -/

@[simp] theorem M.pure_run {σ α : Type} (a : α) (s : σ) :
    (pure a : M σ α) s = Outcome.ret a s := rfl

@[simp] theorem M.bind_run {σ α γ : Type} (m : M σ α) (f : α → M σ γ) (s : σ) :
    (m >>= f) s = M.seq m f s := rfl

@[simp] theorem printf_run {β : Type} (fmt : String) (args : List Arg) (s : State β) :
    printf fmt args s = .ret () { s with stdout := s.stdout ++ [(fmt, args)] } := rfl

@[simp] theorem getState_run {β : Type} (s : State β) : getState s = .ret s s := rfl

@[simp] theorem setPluginID_run {β : Type} (p : Ptr) (s : State β) :
    setPluginID p s = .ret () { s with pluginID := p } := rfl

@[simp] theorem setPluginPath_run {β : Type} (bytes : List Nat) (s : State β) :
    setPluginPath bytes s = .ret () { s with pPluginPath := bytes } := rfl

/-! ## C8, C7, C5: the event callbacks -/

/-- C8: `ts3plugin_onUpdateClientEvent` makes exactly one call to an outside
object, `cPluginBase.onUpdateClientEvent(serverConnectionHandlerID, clientID,
INVALID_CHANNEL_ID)`, whether that call returns or raises: the handler id and
the client id are passed through unchanged, the channel id is always
`INVALID_CHANNEL_ID`, and the invoker arguments have no influence on the outcome. -/
theorem onUpdateClientEvent_forwards {β : Type} (E : Env β) (s : State β)
    (serverConnectionHandlerID clientID invokerID : Nat)
    (invokerName invokerUniqueIdentifier : Ptr) :
    (∃ s' r, (ts3plugin_onUpdateClientEvent E serverConnectionHandlerID clientID invokerID
          invokerName invokerUniqueIdentifier s).final = some s' ∧
        s'.trace = s.trace ++ [(Call.base (.onUpdateClientEvent serverConnectionHandlerID
          clientID E.INVALID_CHANNEL_ID), r)]) ∧
    ∀ (invokerID' : Nat) (invokerName' invokerUniqueIdentifier' : Ptr),
      ts3plugin_onUpdateClientEvent E serverConnectionHandlerID clientID invokerID'
          invokerName' invokerUniqueIdentifier' s =
        ts3plugin_onUpdateClientEvent E serverConnectionHandlerID clientID invokerID
          invokerName invokerUniqueIdentifier s := by
  refine ⟨?_, fun _ _ _ => rfl⟩
  cases hr : E.reply (Call.base (.onUpdateClientEvent serverConnectionHandlerID clientID
    E.INVALID_CHANNEL_ID)) s.heap s.outside <;>
  simp [ts3plugin_onUpdateClientEvent, DEBUG_TSIF, M.seq, call, hr, Outcome.final]

/-- In all surroundings the one call that `ts3plugin_onClientMoveSubscriptionEvent`
makes carries the `newChannelID` of the event. -/
theorem onClientMoveSubscriptionEvent_forwards {β : Type} (E : Env β) (s : State β)
    (serverConnectionHandlerID clientID oldChannelID newChannelID : Nat) (visibility : Int) :
    ∃ s' r, (ts3plugin_onClientMoveSubscriptionEvent E serverConnectionHandlerID clientID
          oldChannelID newChannelID visibility s).final = some s' ∧
        s'.trace = s.trace ++ [(Call.base (.onUpdateClientEvent serverConnectionHandlerID
          clientID newChannelID), r)] := by
  cases hr : E.reply (Call.base (.onUpdateClientEvent serverConnectionHandlerID clientID
    newChannelID)) s.heap s.outside <;>
  simp [ts3plugin_onClientMoveSubscriptionEvent, DEBUG_TSIF, M.seq, call, hr, Outcome.final]

/-- C7, the code at a failing input: with `INVALID_CHANNEL_ID` the 64-bit value
of -1, the subscription event for client 2 on handler 1 with `newChannelID = 5`
calls `cPluginBase.onUpdateClientEvent(1, 2, 5)`, not
`onUpdateClientEvent(1, 2, INVALID_CHANNEL_ID)`, which is what the sibling
`ts3plugin_onUpdateClientEvent` calls. -/
theorem onClientMoveSubscriptionEvent_passes_newChannelID :
    ((ts3plugin_onClientMoveSubscriptionEvent E_quiet 1 2 0 5 0 s_start).final.map
        fun s => s.trace) = some [(Call.base (.onUpdateClientEvent 1 2 5), none)] ∧
    (5 : Nat) ≠ E_quiet.INVALID_CHANNEL_ID ∧
    ((ts3plugin_onUpdateClientEvent E_quiet 1 2 0 none none s_start).final.map
        fun s => s.trace) =
      some [(Call.base (.onUpdateClientEvent 1 2 (2 ^ 64 - 1)), none)] := by
  decide

/-- C5: `ts3plugin_onServerErrorEvent` returns, and its result is 1 if and only
if `returnCode` is not NULL and 0 if and only if it is NULL; the result is a
function of whether `returnCode` is NULL and of nothing else (not of the state,
the handler id, the messages or the error code). -/
theorem onServerErrorEvent_result {β : Type} (s : State β) (serverConnectionHandlerID : Nat)
    (errorMessage : Ptr) (error : Nat) (returnCode extraMessage : Ptr) :
    (ts3plugin_onServerErrorEvent serverConnectionHandlerID errorMessage error returnCode
        extraMessage s).value = some (if returnCode.isSome then 1 else 0) ∧
    ((ts3plugin_onServerErrorEvent serverConnectionHandlerID errorMessage error returnCode
        extraMessage s).value = some 1 ↔ returnCode ≠ none) ∧
    ((ts3plugin_onServerErrorEvent serverConnectionHandlerID errorMessage error returnCode
        extraMessage s).value = some 0 ↔ returnCode = none) := by
  cases returnCode <;>
  simp [ts3plugin_onServerErrorEvent, DEBUG_TSIF, M.seq, Outcome.value]

/-! ## C9: the tab style -/

/-- C9: `CustomTabStyle::sizeFromContents` returns the size of the base style
with width and height swapped when the type is `CT_TabBarTab` (the width of the
result is the height of the base size, its height the width of the base size),
and the size of the base style unchanged for every other content type. -/
theorem sizeFromContents_transposes_tabs {Opt Wid : Type} (CT_TabBarTab : ContentsType)
    (baseStyle : ContentsType → Opt → QSize → Wid → QSize)
    (type : ContentsType) (option : Opt) (size : QSize) (widget : Wid) :
    (type = CT_TabBarTab →
      (CustomTabStyle.sizeFromContents CT_TabBarTab baseStyle type option size widget).wd =
          (baseStyle type option size widget).ht ∧
      (CustomTabStyle.sizeFromContents CT_TabBarTab baseStyle type option size widget).ht =
          (baseStyle type option size widget).wd) ∧
    (type ≠ CT_TabBarTab →
      CustomTabStyle.sizeFromContents CT_TabBarTab baseStyle type option size widget =
        baseStyle type option size widget) := by
  constructor
  · intro h
    simp [CustomTabStyle.sizeFromContents, QSize.transpose, h]
  · intro h
    simp [CustomTabStyle.sizeFromContents, h]

/-- C9 at concrete inputs: with `CT_TabBarTab = 11` and a base style that adds a
margin of 4 to each side, a 30 by 100 tab comes out 104 wide and 34 high, and
the same contents of type 0 come out 34 wide and 104 high. -/
theorem sizeFromContents_transposes_tabs_witness :
    CustomTabStyle.sizeFromContents 11 (fun _ (_ : Unit) sz (_ : Unit) => ⟨sz.wd + 4, sz.ht + 4⟩)
        11 () ⟨30, 100⟩ () = ⟨104, 34⟩ ∧
    CustomTabStyle.sizeFromContents 11 (fun _ (_ : Unit) sz (_ : Unit) => ⟨sz.wd + 4, sz.ht + 4⟩)
        0 () ⟨30, 100⟩ () = ⟨34, 104⟩ := by
  have h1 := (sizeFromContents_transposes_tabs 11
    (fun _ (_ : Unit) sz (_ : Unit) => ⟨sz.wd + 4, sz.ht + 4⟩) 11 () ⟨30, 100⟩ ()).1 rfl
  have h2 := (sizeFromContents_transposes_tabs 11
    (fun _ (_ : Unit) sz (_ : Unit) => ⟨sz.wd + 4, sz.ht + 4⟩) 0 () ⟨30, 100⟩ ()).2 (by decide)
  refine ⟨?_, h2⟩
  cases hs : CustomTabStyle.sizeFromContents 11
    (fun _ (_ : Unit) sz (_ : Unit) => ⟨sz.wd + 4, sz.ht + 4⟩) 11 () ⟨30, 100⟩ () with
  | mk w h =>
    rw [hs] at h1
    obtain ⟨hw, hh⟩ := h1
    simp only at hw hh
    rw [hw, hh]
    rfl

/-! ## Memory: lookup after an update -/

theorem Heap.lt_fresh (h : Heap) (e : Nat × List Nat) (he : e ∈ h) : e.1 < h.fresh := by
  induction h with
  | nil => cases he
  | cons x t ih =>
    simp only [Heap.fresh, List.map_cons, List.foldr_cons] at ih ⊢
    rcases List.mem_cons.1 he with rfl | hmem
    · omega
    · have := ih hmem
      omega

theorem Heap.mem_of_block {h : Heap} {b : Nat} {bytes : List Nat}
    (hb : h.block b = some bytes) : (b, bytes) ∈ h := by
  induction h with
  | nil => cases hb
  | cons x t ih =>
    obtain ⟨b', bs⟩ := x
    simp only [Heap.block] at hb
    split at hb
    · cases hb
      subst_vars
      exact List.mem_cons_self _ _
    · exact List.mem_cons_of_mem _ (ih hb)

theorem Heap.block_lt_fresh {h : Heap} {b : Nat} {bytes : List Nat}
    (hb : h.block b = some bytes) : b < h.fresh :=
  Heap.lt_fresh h (b, bytes) (Heap.mem_of_block hb)

theorem Heap.block_fresh (h : Heap) : h.block h.fresh = none := by
  cases hb : h.block h.fresh with
  | none => rfl
  | some bytes => exact absurd (Heap.block_lt_fresh hb) (lt_irrefl _)

theorem Heap.block_cons (h : Heap) (b b' : Nat) (bytes : List Nat) :
    Heap.block ((b, bytes) :: h) b' = if b = b' then some bytes else h.block b' := rfl

theorem Heap.block_set_self {h : Heap} {b : Nat} {old : List Nat} (bytes : List Nat)
    (hb : h.block b = some old) : (h.set b bytes).block b = some bytes := by
  induction h with
  | nil => cases hb
  | cons x t ih =>
    obtain ⟨b', bs⟩ := x
    by_cases hx : b' = b
    · simp [Heap.set, Heap.block, hx]
    · simp only [Heap.block, hx, if_false] at hb
      simp only [Heap.set, hx, if_false, Heap.block]
      exact ih hb

theorem Heap.block_set_ne (h : Heap) {b b' : Nat} (bytes : List Nat) (hne : b' ≠ b) :
    (h.set b bytes).block b' = h.block b' := by
  induction h with
  | nil => rfl
  | cons x t ih =>
    obtain ⟨b1, bs⟩ := x
    by_cases hx : b1 = b
    · have h2 : ¬ b1 = b' := fun hh => hne (hh.symm.trans hx)
      simp only [Heap.set, hx, if_true, Heap.block]
      rw [if_neg (fun hh => hne hh.symm), if_neg (fun hh => hne hh.symm)]
      exact ih
    · simp only [Heap.set, hx, if_false, Heap.block]
      rw [ih]

theorem Heap.block_erase_ne (h : Heap) {b b' : Nat} (hne : b' ≠ b) :
    (h.erase b).block b' = h.block b' := by
  induction h with
  | nil => rfl
  | cons x t ih =>
    obtain ⟨b1, bs⟩ := x
    by_cases hx : b1 = b
    · have h2 : ¬ b1 = b' := fun hh => hne (hh.symm.trans hx)
      simp only [Heap.erase, hx, if_true, Heap.block]
      rw [if_neg (fun hh => hne hh.symm)]
      exact ih
    · simp only [Heap.erase, hx, if_false, Heap.block]
      rw [ih]

theorem Heap.block_erase_self (h : Heap) (b : Nat) : (h.erase b).block b = none := by
  induction h with
  | nil => rfl
  | cons x t ih =>
    obtain ⟨b1, bs⟩ := x
    by_cases hx : b1 = b
    · simp only [Heap.erase, hx, if_true]
      exact ih
    · simp only [Heap.erase, hx, if_false, Heap.block]
      exact ih

/-! ## Memory: C strings and `_strcpy` into a new block -/

theorem takeWhile_length_lt {bs : List Nat} (h0 : 0 ∈ bs) :
    (bs.takeWhile fun c => decide (c ≠ 0)).length < bs.length := by
  induction bs with
  | nil => cases h0
  | cons x t ih =>
    by_cases hx : x = 0
    · simp [List.takeWhile, hx]
    · have : 0 ∈ t := by
        rcases List.mem_cons.1 h0 with h | h
        · exact absurd h.symm hx
        · exact h
      simpa [List.takeWhile, hx] using ih this

theorem zero_not_mem_takeWhile (bs : List Nat) :
    0 ∉ bs.takeWhile fun c => decide (c ≠ 0) := by
  intro h
  have := List.mem_takeWhile_imp h
  simp at this

theorem takeWhile_append_zero {str : List Nat} (tail : List Nat) (h0 : 0 ∉ str) :
    (str ++ 0 :: tail).takeWhile (fun c => decide (c ≠ 0)) = str := by
  induction str with
  | nil => simp [List.takeWhile]
  | cons x t ih =>
    have hx : x ≠ 0 := fun h => h0 (h ▸ List.mem_cons_self _ _)
    have ht : 0 ∉ t := fun h => h0 (List.mem_cons_of_mem _ h)
    simpa [List.takeWhile, hx] using ih ht

theorem cstring_eq_some {bs str : List Nat} (h : cstring bs = some str) :
    0 ∈ bs ∧ (bs.takeWhile fun c => decide (c ≠ 0)) = str := by
  unfold cstring at h
  split at h
  · exact ⟨by assumption, Option.some.inj h⟩
  · cases h

theorem cstring_append_zero {str : List Nat} (tail : List Nat) (h0 : 0 ∉ str) :
    cstring (str ++ 0 :: tail) = some str := by
  unfold cstring
  rw [if_pos (by simp), takeWhile_append_zero tail h0]

theorem stringAt_eq_some {h : Heap} {src : Src} {str : List Nat}
    (hs : stringAt h src = some str) :
    ∃ bs, load h src = some bs ∧ 0 ∈ bs ∧ (bs.takeWhile fun c => decide (c ≠ 0)) = str := by
  unfold stringAt at hs
  cases hl : load h src with
  | none => simp [hl] at hs
  | some bs =>
    rw [hl] at hs
    exact ⟨bs, rfl, cstring_eq_some hs⟩

theorem load_cons_of_none {h : Heap} {b : Nat} (J : List Nat) {src : Src} {bs : List Nat}
    (hb : h.block b = none) (hl : load h src = some bs) :
    load ((b, J) :: h) src = some bs := by
  cases src with
  | lit bytes => exact hl
  | mem p =>
    cases p with
    | none => cases hl
    | some a =>
      have hne : ¬ b = a.block := by
        intro hh
        simp [load, ← hh, hb] at hl
      simpa [load, Heap.block_cons, hne] using hl

theorem overlaps_of_none {h : Heap} {b : Nat} {src : Src} {bs : List Nat} (o n m : Nat)
    (hb : h.block b = none) (hl : load h src = some bs) :
    overlaps (some ⟨b, o⟩) n src m = false := by
  cases src with
  | lit bytes => rfl
  | mem p =>
    cases p with
    | none => rfl
    | some a =>
      have hne : ¬ b = a.block := by
        intro hh
        simp [load, ← hh, hb] at hl
      simp [overlaps, hne]

theorem store_block {h : Heap} {a : Addr} {bytes : List Nat} (data : List Nat)
    (hb : h.block a.block = some bytes) (hlen : a.off + data.length ≤ bytes.length) :
    ∃ h', store h (some a) data = some h' ∧
      h'.block a.block =
        some (bytes.take a.off ++ data ++ bytes.drop (a.off + data.length)) ∧
      ∀ b', b' ≠ a.block → h'.block b' = h.block b' := by
  refine ⟨h.set a.block (bytes.take a.off ++ data ++ bytes.drop (a.off + data.length)),
    ?_, Heap.block_set_self _ hb, fun b' hne => Heap.block_set_ne _ _ hne⟩
  simp [store, hb, hlen]

/-- A `_strcpy` of a string of fewer than `J.length` characters into a block of
`J.length` bytes that `malloc` has just returned: the block then holds the
string, its NUL and `J.length - (str.length + 1)` further bytes, and no other
block has changed. -/
theorem _strcpy_new_block (pf : Platform) {h : Heap} {src : Src} {str : List Nat}
    (J : List Nat) {b : Nat} (hsrc : stringAt h src = some str) (hb : h.block b = none)
    (hfit : str.length < J.length) :
    ∃ h' tail, _strcpy pf ((b, J) :: h) (some ⟨b, 0⟩) J.length src = some h' ∧
      h'.block b = some (str ++ 0 :: tail) ∧
      tail.length = J.length - (str.length + 1) ∧
      ∀ b', b' ≠ b → h'.block b' = h.block b' := by
  obtain ⟨bs, hl, h0, htw⟩ := stringAt_eq_some hsrc
  have hl1 : load ((b, J) :: h) src = some bs := load_cons_of_none J hb hl
  have hblk : Heap.block ((b, J) :: h) (Addr.mk b 0).block = some J := by
    simp [Heap.block_cons]
  have hcons : ∀ b', b' ≠ b → Heap.block ((b, J) :: h) b' = h.block b' := by
    intro b' hne
    rw [Heap.block_cons, if_neg (fun hh => hne hh.symm)]
  cases pf with
  | win32 fill =>
    have hs1 : stringAt ((b, J) :: h) src = some str := by
      simp only [stringAt, hl1, Option.some_bind, cstring, h0, if_true, htw]
    have hov := overlaps_of_none 0 (str.length + 1) (str.length + 1) hb hl
    cases fill with
    | none =>
      obtain ⟨h1, hst, hb1, ho1⟩ := store_block (str ++ [0]) hblk (by simp; omega)
      refine ⟨h1, J.drop (str.length + 1), ?_, ?_, ?_, fun b' hne => ?_⟩
      · simpa [_strcpy, strcpy_s, hs1, hov, hfit] using hst
      · rw [hb1]
        simp
      · simp
      · rw [ho1 b' hne, hcons b' hne]
    | some v =>
      obtain ⟨h1, hst, hb1, ho1⟩ := store_block
        (str ++ [0] ++ List.replicate (J.length - (str.length + 1)) v) hblk (by simp; omega)
      refine ⟨h1, List.replicate (J.length - (str.length + 1)) v, ?_, ?_, ?_,
        fun b' hne => ?_⟩
      · simpa [_strcpy, strcpy_s, hs1, hov, hfit] using hst
      · rw [hb1]
        have : str.length + (J.length - (str.length + 1) + 1) = J.length := by omega
        simp [this]
      · simp
      · rw [ho1 b' hne, hcons b' hne]
  | other =>
    have hJ0 : J.length ≠ 0 := by omega
    have hov := overlaps_of_none 0 (J.length - 1) (min (J.length - 1) (str.length + 1)) hb hl
    have hlt : str.length < bs.length := htw ▸ takeWhile_length_lt h0
    -- the bytes that `strncpy` writes
    have hdata : ∃ data, data = str ++ List.replicate (J.length - 1 - str.length) 0 ∧
        strncpy ((b, J) :: h) (some ⟨b, 0⟩) src (J.length - 1) =
          store ((b, J) :: h) (some ⟨b, 0⟩) data := by
      refine ⟨_, rfl, ?_⟩
      simp only [strncpy, hl1, htw, hov]
      by_cases hn : J.length - 1 ≤ str.length
      · have h1 : J.length - 1 = str.length := by omega
        simp [h1]
      · simp [hn, hlt]
    obtain ⟨data, hd, hcpy⟩ := hdata
    have hdlen : data.length = J.length - 1 := by
      rw [hd]
      simp
      omega
    obtain ⟨h1, hst1, hb1, ho1⟩ := store_block data hblk (by simp only [hdlen]; omega)
    have hB1 : J.take (Addr.mk b 0).off ++ data ++ J.drop ((Addr.mk b 0).off + data.length) =
        data ++ J.drop (J.length - 1) := by
      simp [hdlen]
    rw [hB1] at hb1
    have hb1' : h1.block (Addr.mk b (0 + (J.length - 1))).block =
        some (data ++ J.drop (J.length - 1)) := hb1
    obtain ⟨h2, hst2, hb2, ho2⟩ := store_block [0] hb1' (by simp [hdlen]; omega)
    refine ⟨h2, List.replicate (J.length - 1 - str.length) 0, ?_, ?_, ?_, fun b' hne => ?_⟩
    · simp only [_strcpy, hJ0, if_false, hcpy, hst1, Ptr_add, Option.map_some']
      exact hst2
    · have e1 : (data ++ J.drop (J.length - 1)).take (0 + (J.length - 1)) = data := by
        rw [Nat.zero_add]
        exact List.take_left' hdlen
      have e2 : (data ++ J.drop (J.length - 1)).drop (0 + (J.length - 1) + [0].length) = [] := by
        apply List.drop_eq_nil_of_le
        simp [hdlen]
        omega
      have hb2' : h2.block b = some ((data ++ J.drop (J.length - 1)).take (0 + (J.length - 1)) ++
        [0] ++ (data ++ J.drop (J.length - 1)).drop (0 + (J.length - 1) + [0].length)) := hb2
      rw [hb2', e1, e2, hd]
      have e3 : ∀ k : Nat, List.replicate k 0 ++ [0] = 0 :: List.replicate k 0 := by
        intro k
        induction k with
        | zero => rfl
        | succ k ih => simp [List.replicate_succ, ih]
      simp [e3]
    · simp
      omega
    · rw [ho2 b' hne, ho1 b' hne, hcons b' hne]

theorem stringAt_of_block {h : Heap} {b : Nat} {str : List Nat} (tail : List Nat)
    (h0 : 0 ∉ str) (hb : h.block b = some (str ++ 0 :: tail)) :
    stringAt h (.mem (some ⟨b, 0⟩)) = some str := by
  simp only [stringAt, load, hb, Nat.zero_le, if_true, List.drop_zero, Option.some_bind]
  exact cstring_append_zero tail h0

/-! ## C2: `ts3plugin_registerPluginID` -/

/-- C2: for an `id` that points to a NUL-terminated string with characters `str`,
and a `malloc` that succeeds, `ts3plugin_registerPluginID(id)` returns with the
global `pluginID` pointing to the start of a block that was not live before
(so it is not the block of `id`), of exactly `strlen(id) + 1` bytes: the
characters of `id`, all of them, and then the NUL.  No other block has
changed, and the string at `pluginID` stays `str` when the block of `id` is
overwritten or released afterwards. -/
theorem registerPluginID_copies {β : Type} (E : Env β) (s : State β) (id : Ptr)
    (str : List Nat) (junk : Nat → Nat)
    (hid : stringAt s.heap (.mem id) = some str)
    (hm : E.alloc s.heap (str.length + 1) = some junk) :
    ∃ s', ts3plugin_registerPluginID E id s = .ret () s' ∧
      s'.pluginID = some ⟨s.heap.fresh, 0⟩ ∧
      s.heap.block s.heap.fresh = none ∧
      (∀ a, id = some a → a.block ≠ s.heap.fresh) ∧
      s'.heap.block s.heap.fresh = some (str ++ [0]) ∧
      (str ++ [0]).length = str.length + 1 ∧
      (∀ b, b ≠ s.heap.fresh → s'.heap.block b = s.heap.block b) ∧
      stringAt s'.heap (.mem s'.pluginID) = some str ∧
      (∀ a bytes, id = some a →
        stringAt (s'.heap.set a.block bytes) (.mem s'.pluginID) = some str) ∧
      (∀ a, id = some a → stringAt (s'.heap.erase a.block) (.mem s'.pluginID) = some str) := by
  obtain ⟨bs, hl, h0, htw⟩ := stringAt_eq_some hid
  have hz : 0 ∉ str := htw ▸ zero_not_mem_takeWhile bs
  have key := _strcpy_new_block E.pf ((List.range (str.length + 1)).map junk) hid
    (Heap.block_fresh s.heap) (by simp)
  simp only [List.length_map, List.length_range] at key
  obtain ⟨h', tail, hcp, hblk, htail, hoth⟩ := key
  have ht : tail = [] := List.length_eq_zero.1 (by omega)
  subst ht
  have hne : ∀ a, id = some a → a.block ≠ s.heap.fresh := by
    intro a ha hh
    subst ha
    have hfr := Heap.block_fresh s.heap
    simp [load, hh, hfr] at hl
  refine ⟨{ s with heap := h', pluginID := some ⟨s.heap.fresh, 0⟩,
                   stdout := s.stdout ++ [("PLUGIN: registerPluginID: %s\n",
                     [Arg.ptr (some ⟨s.heap.fresh, 0⟩)])] },
    ?_, rfl, Heap.block_fresh s.heap, hne, hblk, by simp, hoth, ?_, ?_, ?_⟩
  · simp [ts3plugin_registerPluginID, M.seq, c_strlen, strlen, hid, c_malloc, malloc, hm,
      c_strcpy, hcp, DEBUG_TSIF]
  · exact stringAt_of_block [] hz hblk
  · intro a bytes ha
    refine stringAt_of_block [] hz ?_
    show (Heap.set h' a.block bytes).block s.heap.fresh = _
    rw [Heap.block_set_ne _ _ (fun hh => hne a ha hh.symm), hblk]
  · intro a ha
    refine stringAt_of_block [] hz ?_
    show (Heap.erase h' a.block).block s.heap.fresh = _
    rw [Heap.block_erase_ne _ (fun hh => hne a ha hh.symm), hblk]

/-- When `malloc` returns NULL, `ts3plugin_registerPluginID` copies through the
NULL pointer: the source does not test the result of `malloc`. -/
theorem registerPluginID_malloc_null {β : Type} (E : Env β) (s : State β) (id : Ptr)
    (str : List Nat) (hid : stringAt s.heap (.mem id) = some str)
    (hm : E.alloc s.heap (str.length + 1) = none) :
    ts3plugin_registerPluginID E id s = .undefined := by
  obtain ⟨bs, hl, h0, htw⟩ := stringAt_eq_some hid
  have hov : ∀ n m, overlaps none n (.mem id) m = false := fun _ _ => rfl
  cases hpf : E.pf with
  | win32 fill =>
    cases fill <;>
    simp [ts3plugin_registerPluginID, M.seq, c_strlen, strlen, hid, c_malloc, malloc, hm,
      c_strcpy, _strcpy, hpf, strcpy_s, hov, store]
  | other =>
    simp [ts3plugin_registerPluginID, M.seq, c_strlen, strlen, hid, c_malloc, malloc, hm,
      c_strcpy, _strcpy, hpf, strncpy, hl, htw, hov, store]

/-- C2 at a concrete input: the id "ts3" held in block 1 of `s_start`. -/
theorem registerPluginID_copies_witness :
    ∃ s', ts3plugin_registerPluginID E_quiet (some ⟨1, 0⟩) s_start = .ret () s' ∧
      s'.pluginID = some ⟨2, 0⟩ ∧
      s'.heap.block 2 = some (ascii "ts3" ++ [0]) ∧
      stringAt (s'.heap.erase 1) (.mem s'.pluginID) = some (ascii "ts3") := by
  obtain ⟨s', hrun, hp, -, -, hblk, -, -, -, -, her⟩ :=
    registerPluginID_copies E_quiet s_start (some ⟨1, 0⟩) (ascii "ts3") (fun _ => 170)
      (by decide) rfl
  exact ⟨s', hrun, hp, hblk, her ⟨1, 0⟩ rfl⟩

/-! ## C6: `ts3plugin_initMenus` -/

theorem stringAt_phone_png (h : Heap) :
    stringAt h (.lit (ascii "phone.png" ++ [0])) = some (ascii "phone.png") := by
  have hc : cstring (ascii "phone.png" ++ [0]) = some (ascii "phone.png") := by decide
  simpa [stringAt, load] using hc

/-- C6: when `cPluginBase.InitMenu` returns and `malloc` succeeds, and
`PLUGIN_MENU_BUFSZ` exceeds the 9 characters of the literal,
`ts3plugin_initMenus(menuItems, menuIcon)` returns with `*menuIcon` pointing to
the start of a block that was not live when `InitMenu` returned, of
`PLUGIN_MENU_BUFSZ` bytes, which begins with "phone.png" and its NUL: the string
at `*menuIcon` is "phone.png", whole, and has at most 128 characters.  This holds
for every memory `h1` and every outside state `b1` that `InitMenu` leaves behind,
and no block that `InitMenu` left behind is changed. -/
theorem initMenus_icon {β : Type} (E : Env β) (s : State β) (menuItems icon0 : Ptr)
    (h1 : Heap) (b1 : β) (out : List Nat) (junk : Nat → Nat)
    (hmenu : E.reply (.base (.InitMenu menuItems)) s.heap s.outside = .ok h1 b1 out)
    (hm : E.alloc h1 E.PLUGIN_MENU_BUFSZ = some junk)
    (hsz : (ascii "phone.png").length < E.PLUGIN_MENU_BUFSZ) :
    ∃ s' tail, ts3plugin_initMenus E menuItems icon0 s = .ret (some ⟨h1.fresh, 0⟩) s' ∧
      h1.block h1.fresh = none ∧
      s'.heap.block h1.fresh = some (ascii "phone.png" ++ 0 :: tail) ∧
      (ascii "phone.png" ++ 0 :: tail).length = E.PLUGIN_MENU_BUFSZ ∧
      stringAt s'.heap (.mem (some ⟨h1.fresh, 0⟩)) = some (ascii "phone.png") ∧
      (ascii "phone.png").length ≤ 128 ∧
      ∀ b, b ≠ h1.fresh → s'.heap.block b = h1.block b := by
  have key := _strcpy_new_block E.pf ((List.range E.PLUGIN_MENU_BUFSZ).map junk)
    (stringAt_phone_png h1) (Heap.block_fresh h1) (by simpa using hsz)
  simp only [List.length_map, List.length_range] at key
  obtain ⟨h', tail, hcp, hblk, htail, hoth⟩ := key
  refine ⟨{ s with heap := h', outside := b1,
                   trace := s.trace ++ [(Call.base (.InitMenu menuItems), none)] }, tail,
    ?_, Heap.block_fresh h1, hblk, ?_, stringAt_of_block tail (by decide) hblk, by decide, hoth⟩
  · simp [ts3plugin_initMenus, M.seq, M.tryCatch, call, hmenu, c_malloc, malloc, hm,
      c_strcpy, hcp]
  · simp only [List.length_append, List.length_cons, htail]
    omega

/-- When `cPluginBase.InitMenu` raises, `ts3plugin_initMenus` ends there: the call
stands before the `try` block. -/
theorem initMenus_InitMenu_raises {β : Type} (E : Env β) (s : State β)
    (menuItems icon0 : Ptr) (e : Exc) (h1 : Heap) (b1 : β)
    (hmenu : E.reply (.base (.InitMenu menuItems)) s.heap s.outside = .raise e h1 b1) :
    ts3plugin_initMenus E menuItems icon0 s =
      .throw e { s with heap := h1, outside := b1,
                        trace := s.trace ++ [(Call.base (.InitMenu menuItems), some e)] } := by
  simp [ts3plugin_initMenus, M.seq, call, hmenu]

/-- C6 at a concrete input: `PLUGIN_MENU_BUFSZ = 128`, every outside call returns. -/
theorem initMenus_icon_witness :
    ∃ s' tail, ts3plugin_initMenus E_quiet none none s_start = .ret (some ⟨2, 0⟩) s' ∧
      s'.heap.block 2 = some (ascii "phone.png" ++ 0 :: tail) ∧
      (ascii "phone.png" ++ 0 :: tail).length = 128 ∧
      stringAt s'.heap (.mem (some ⟨2, 0⟩)) = some (ascii "phone.png") := by
  obtain ⟨s', tail, hrun, -, hblk, hlen, hstr, -, -⟩ :=
    initMenus_icon E_quiet s_start none none s_start.heap () [] (fun _ => 170) rfl rfl
      (by decide)
  exact ⟨s', tail, hrun, hblk, hlen, hstr⟩

/-! ## C1: errors raised by `cPluginBase` -/

/-- C1, the code at a failing input: when `cPluginBase.Init` raises a
`std::exception`, `ts3plugin_init` does not return; the exception leaves it and
reaches the host, and `cErrHandler.error_log` is not called (the seven calls
made are the four path queries, `cErrHandler.init`, `remove_log_file` and
`Init`).  The sibling `ts3plugin_shutdown`, run with a `Close` that raises the
same exception, catches it, calls `error_log` and returns. -/
theorem init_lets_error_escape :
    (ts3plugin_init E_failing s_start).escaped = some (.std "plugin_base failed") ∧
    (ts3plugin_init E_failing s_start).value = none ∧
    ((ts3plugin_init E_failing s_start).final.map fun s => s.trace) =
      some [(.host (.getAppPath 8), none), (.host (.getResourcesPath 8), none),
        (.host (.getConfigPath 8), none), (.host (.getPluginPath 8 none), none),
        (.err (.init (ascii "/p")), none), (.err .remove_log_file, none),
        (.base (.Init (ascii "/p") none), some (.std "plugin_base failed"))] ∧
    (ts3plugin_shutdown E_failing s_start).value = some () ∧
    ((ts3plugin_shutdown E_failing s_start).final.map fun s => s.trace) =
      some [(.base .Close, some (.std "plugin_base failed")),
        (.err (.error_log "ts3plugin_shutdown" (some (.std "plugin_base failed"))), none)] := by
  decide

theorem drop_trace {α : Type} (l1 l2 : List α) : (l1 ++ l2).drop l1.length = l2 := by
  induction l1 with
  | nil => rfl
  | cons x t ih => simp

/-- What the entry points do with an error of `cPluginBase`, in all
surroundings: let a call that an entry point made to `cPluginBase` have raised
the error `e`.  In `ts3plugin_shutdown` the call is `Close`, the error is
caught and passed on in exactly one call of `cErrHandler.error_log` (with the
function signature and the exception, or with the signature alone for an
exception that is neither a `std::exception` nor a `boost::exception`), and the
entry point returns normally when `error_log` does.  In `ts3plugin_init`,
`ts3plugin_configure`, `ts3plugin_infoData`, `ts3plugin_initHotkeys`, the
`on*Event` callbacks, `ts3plugin_onMenuItemEvent` and `ts3plugin_onHotkeyEvent`
the handlers of the sibling are missing: the error `e` leaves the entry point
and `error_log` is not called.  (For `ts3plugin_initMenus` see
`initMenus_InitMenu_raises`.) -/
theorem forwarded_errors {β : Type} (E : Env β) (s s' : State β) (inv : Invocation)
    (c : BaseCall) (e : Exc)
    (hfin : (inv.run E s).final = some s')
    (hraised : (Call.base c, some e) ∈ s'.trace.drop s.trace.length) :
    match inv with
    | .shutdown =>
      ∃ r, s'.trace = s.trace ++ [(.base .Close, some e),
          (.err (.error_log "ts3plugin_shutdown"
            (match e with
             | .unknown _ => none
             | _ => some e)), r)] ∧
        s'.pluginID = s.pluginID ∧
        inv.run E s =
          (match r with
           | none => .ret .void s'
           | some e2 => .throw e2 s')
    | .initMenus _ _ => True
    | _ =>
      inv.run E s = .throw e s' ∧
        ∀ f x r, (Call.err (.error_log f x), r) ∉ s'.trace.drop s.trace.length := by
  cases inv with
  | init =>
    cases r1 : E.reply (.host (.getAppPath E.PATH_BUFSIZE)) s.heap s.outside with
    | raise e1 h1 b1 =>
      simp [Invocation.run, ts3plugin_init, M.seq, call, DEBUG_TSIF, r1, Outcome.final] at hfin
      subst hfin
      simp [drop_trace] at hraised
    | ok h1 b1 o1 =>
      cases r2 : E.reply (.host (.getResourcesPath E.PATH_BUFSIZE)) h1 b1 with
      | raise e2 h2 b2 =>
        simp [Invocation.run, ts3plugin_init, M.seq, call, DEBUG_TSIF, r1, r2, Outcome.final] at hfin
        subst hfin
        simp [drop_trace] at hraised
      | ok h2 b2 o2 =>
        cases r3 : E.reply (.host (.getConfigPath E.PATH_BUFSIZE)) h2 b2 with
        | raise e3 h3 b3 =>
          simp [Invocation.run, ts3plugin_init, M.seq, call, DEBUG_TSIF, r1, r2, r3, Outcome.final] at hfin
          subst hfin
          simp [drop_trace] at hraised
        | ok h3 b3 o3 =>
          cases r4 : E.reply (.host (.getPluginPath E.PATH_BUFSIZE s.pluginID)) h3 b3 with
          | raise e4 h4 b4 =>
            simp [Invocation.run, ts3plugin_init, M.seq, call, DEBUG_TSIF, r1, r2, r3, r4, Outcome.final] at hfin
            subst hfin
            simp [drop_trace] at hraised
          | ok h4 b4 o4 =>
            cases r5 : E.reply (.err (.init (std_string o4))) h4 b4 with
            | raise e5 h5 b5 =>
              simp [Invocation.run, ts3plugin_init, M.seq, call, DEBUG_TSIF, r1, r2, r3, r4, r5, Outcome.final] at hfin
              subst hfin
              simp [drop_trace] at hraised
            | ok h5 b5 o5 =>
              cases r6 : E.reply (.err .remove_log_file) h5 b5 with
              | raise e6 h6 b6 =>
                simp [Invocation.run, ts3plugin_init, M.seq, call, DEBUG_TSIF, r1, r2, r3, r4, r5, r6, Outcome.final] at hfin
                subst hfin
                simp [drop_trace] at hraised
              | ok h6 b6 o6 =>
                cases r7 : E.reply (.base (.Init (std_string o4) s.pluginID)) h6 b6 with
                | raise e7 h7 b7 =>
                  simp [Invocation.run, ts3plugin_init, M.seq, call, DEBUG_TSIF, r1, r2, r3, r4, r5, r6, r7, Outcome.final] at hfin
                  subst hfin
                  simp [drop_trace] at hraised
                  obtain ⟨-, rfl⟩ := hraised
                  simp [Invocation.run, ts3plugin_init, M.seq, call, DEBUG_TSIF, r1, r2, r3, r4, r5, r6, r7, drop_trace]
                | ok h7 b7 o7 =>
                  simp [Invocation.run, ts3plugin_init, M.seq, call, DEBUG_TSIF, r1, r2, r3, r4, r5, r6, r7, Outcome.final] at hfin
                  subst hfin
                  simp [drop_trace] at hraised
  | shutdown =>
    cases r1 : E.reply (.base .Close) s.heap s.outside with
    | ok h1 b1 o1 =>
      cases hp : s.pluginID with
      | none =>
        simp [Invocation.run, ts3plugin_shutdown, M.tryCatch, M.seq, call, DEBUG_TSIF, r1, hp,
          Outcome.final] at hfin
        subst hfin
        simp [drop_trace] at hraised
      | some a =>
        cases hf : free h1 (some a) with
        | none =>
          simp [Invocation.run, ts3plugin_shutdown, M.tryCatch, M.seq, call, DEBUG_TSIF, r1, hp,
            c_free, hf, Outcome.final] at hfin
        | some h2 =>
          simp [Invocation.run, ts3plugin_shutdown, M.tryCatch, M.seq, call, DEBUG_TSIF, r1, hp,
            c_free, hf, Outcome.final] at hfin
          subst hfin
          simp [drop_trace] at hraised
    | raise e1 h1 b1 =>
      cases e1 with
      | std what =>
        cases r2 : E.reply (.err (.error_log "ts3plugin_shutdown" (some (.std what)))) h1 b1 with
        | ok h2 b2 o2 =>
          simp [Invocation.run, ts3plugin_shutdown, M.tryCatch, handlers, M.seq, call, DEBUG_TSIF,
          r1, r2, Outcome.final] at hfin
          subst hfin
          simp [drop_trace] at hraised
          obtain ⟨-, rfl⟩ := hraised
          refine ⟨none, ?_, rfl, ?_⟩
          · simp
          · simp [Invocation.run, ts3plugin_shutdown, M.tryCatch, handlers, M.seq, call,
              DEBUG_TSIF, r1, r2]
        | raise e2 h2 b2 =>
          simp [Invocation.run, ts3plugin_shutdown, M.tryCatch, handlers, M.seq, call, DEBUG_TSIF,
          r1, r2, Outcome.final] at hfin
          subst hfin
          simp [drop_trace] at hraised
          obtain ⟨-, rfl⟩ := hraised
          refine ⟨some e2, ?_, rfl, ?_⟩
          · simp
          · simp [Invocation.run, ts3plugin_shutdown, M.tryCatch, handlers, M.seq, call,
              DEBUG_TSIF, r1, r2]
      | boost info =>
        cases r2 : E.reply (.err (.error_log "ts3plugin_shutdown" (some (.boost info)))) h1 b1 with
        | ok h2 b2 o2 =>
          simp [Invocation.run, ts3plugin_shutdown, M.tryCatch, handlers, M.seq, call, DEBUG_TSIF,
          r1, r2, Outcome.final] at hfin
          subst hfin
          simp [drop_trace] at hraised
          obtain ⟨-, rfl⟩ := hraised
          refine ⟨none, ?_, rfl, ?_⟩
          · simp
          · simp [Invocation.run, ts3plugin_shutdown, M.tryCatch, handlers, M.seq, call,
              DEBUG_TSIF, r1, r2]
        | raise e2 h2 b2 =>
          simp [Invocation.run, ts3plugin_shutdown, M.tryCatch, handlers, M.seq, call, DEBUG_TSIF,
          r1, r2, Outcome.final] at hfin
          subst hfin
          simp [drop_trace] at hraised
          obtain ⟨-, rfl⟩ := hraised
          refine ⟨some e2, ?_, rfl, ?_⟩
          · simp
          · simp [Invocation.run, ts3plugin_shutdown, M.tryCatch, handlers, M.seq, call,
              DEBUG_TSIF, r1, r2]
      | unknown tag =>
        cases r2 : E.reply (.err (.error_log "ts3plugin_shutdown" none)) h1 b1 with
        | ok h2 b2 o2 =>
          simp [Invocation.run, ts3plugin_shutdown, M.tryCatch, handlers, M.seq, call, DEBUG_TSIF,
          r1, r2, Outcome.final] at hfin
          subst hfin
          simp [drop_trace] at hraised
          obtain ⟨-, rfl⟩ := hraised
          refine ⟨none, ?_, rfl, ?_⟩
          · simp
          · simp [Invocation.run, ts3plugin_shutdown, M.tryCatch, handlers, M.seq, call,
              DEBUG_TSIF, r1, r2]
        | raise e2 h2 b2 =>
          simp [Invocation.run, ts3plugin_shutdown, M.tryCatch, handlers, M.seq, call, DEBUG_TSIF,
          r1, r2, Outcome.final] at hfin
          subst hfin
          simp [drop_trace] at hraised
          obtain ⟨-, rfl⟩ := hraised
          refine ⟨some e2, ?_, rfl, ?_⟩
          · simp
          · simp [Invocation.run, ts3plugin_shutdown, M.tryCatch, handlers, M.seq, call,
              DEBUG_TSIF, r1, r2]
  | configure a b =>
    cases r1 : E.reply (.base (.open_configure_ui)) s.heap s.outside with
    | ok h1 b1 o1 =>
      simp [Invocation.run, ts3plugin_configure, M.seq, call, DEBUG_TSIF, r1,
        Outcome.final] at hfin
      subst hfin
      simp [drop_trace] at hraised
    | raise e1 h1 b1 =>
      simp [Invocation.run, ts3plugin_configure, M.seq, call, DEBUG_TSIF, r1,
        Outcome.final] at hfin
      subst hfin
      simp [drop_trace] at hraised
      obtain ⟨-, rfl⟩ := hraised
      simp [Invocation.run, ts3plugin_configure, M.seq, call, DEBUG_TSIF, r1, drop_trace]
  | initMenus a b => trivial
  | infoData a b c d =>
    cases r1 : E.reply (.base (.infoData a b c d)) s.heap s.outside with
    | ok h1 b1 o1 =>
      simp [Invocation.run, ts3plugin_infoData, M.seq, call, DEBUG_TSIF, r1,
        Outcome.final] at hfin
      subst hfin
      simp [drop_trace] at hraised
    | raise e1 h1 b1 =>
      simp [Invocation.run, ts3plugin_infoData, M.seq, call, DEBUG_TSIF, r1,
        Outcome.final] at hfin
      subst hfin
      simp [drop_trace] at hraised
      obtain ⟨-, rfl⟩ := hraised
      simp [Invocation.run, ts3plugin_infoData, M.seq, call, DEBUG_TSIF, r1, drop_trace]
  | initHotkeys a =>
    cases r1 : E.reply (.base (.initHotkeys a)) s.heap s.outside with
    | ok h1 b1 o1 =>
      simp [Invocation.run, ts3plugin_initHotkeys, M.seq, call, DEBUG_TSIF, r1,
        Outcome.final] at hfin
      subst hfin
      simp [drop_trace] at hraised
    | raise e1 h1 b1 =>
      simp [Invocation.run, ts3plugin_initHotkeys, M.seq, call, DEBUG_TSIF, r1,
        Outcome.final] at hfin
      subst hfin
      simp [drop_trace] at hraised
      obtain ⟨-, rfl⟩ := hraised
      simp [Invocation.run, ts3plugin_initHotkeys, M.seq, call, DEBUG_TSIF, r1, drop_trace]
  | onConnectStatusChangeEvent a b c =>
    cases r1 : E.reply (.base (.onConnect a b)) s.heap s.outside with
    | ok h1 b1 o1 =>
      simp [Invocation.run, ts3plugin_onConnectStatusChangeEvent, M.seq, call, DEBUG_TSIF, r1,
        Outcome.final] at hfin
      subst hfin
      simp [drop_trace] at hraised
    | raise e1 h1 b1 =>
      simp [Invocation.run, ts3plugin_onConnectStatusChangeEvent, M.seq, call, DEBUG_TSIF, r1,
        Outcome.final] at hfin
      subst hfin
      simp [drop_trace] at hraised
      obtain ⟨-, rfl⟩ := hraised
      simp [Invocation.run, ts3plugin_onConnectStatusChangeEvent, M.seq, call, DEBUG_TSIF, r1, drop_trace]
  | onUpdateClientEvent a b c d f =>
    cases r1 : E.reply (.base (.onUpdateClientEvent a b E.INVALID_CHANNEL_ID)) s.heap s.outside with
    | ok h1 b1 o1 =>
      simp [Invocation.run, ts3plugin_onUpdateClientEvent, M.seq, call, DEBUG_TSIF, r1,
        Outcome.final] at hfin
      subst hfin
      simp [drop_trace] at hraised
    | raise e1 h1 b1 =>
      simp [Invocation.run, ts3plugin_onUpdateClientEvent, M.seq, call, DEBUG_TSIF, r1,
        Outcome.final] at hfin
      subst hfin
      simp [drop_trace] at hraised
      obtain ⟨-, rfl⟩ := hraised
      simp [Invocation.run, ts3plugin_onUpdateClientEvent, M.seq, call, DEBUG_TSIF, r1, drop_trace]
  | onClientMoveEvent a b c d f g =>
    cases r1 : E.reply (.base (.onUpdateClientEvent a b d)) s.heap s.outside with
    | ok h1 b1 o1 =>
      simp [Invocation.run, ts3plugin_onClientMoveEvent, M.seq, call, DEBUG_TSIF, r1,
        Outcome.final] at hfin
      subst hfin
      simp [drop_trace] at hraised
    | raise e1 h1 b1 =>
      simp [Invocation.run, ts3plugin_onClientMoveEvent, M.seq, call, DEBUG_TSIF, r1,
        Outcome.final] at hfin
      subst hfin
      simp [drop_trace] at hraised
      obtain ⟨-, rfl⟩ := hraised
      simp [Invocation.run, ts3plugin_onClientMoveEvent, M.seq, call, DEBUG_TSIF, r1, drop_trace]
  | onClientMoveSubscriptionEvent a b c d f =>
    cases r1 : E.reply (.base (.onUpdateClientEvent a b d)) s.heap s.outside with
    | ok h1 b1 o1 =>
      simp [Invocation.run, ts3plugin_onClientMoveSubscriptionEvent, M.seq, call, DEBUG_TSIF, r1,
        Outcome.final] at hfin
      subst hfin
      simp [drop_trace] at hraised
    | raise e1 h1 b1 =>
      simp [Invocation.run, ts3plugin_onClientMoveSubscriptionEvent, M.seq, call, DEBUG_TSIF, r1,
        Outcome.final] at hfin
      subst hfin
      simp [drop_trace] at hraised
      obtain ⟨-, rfl⟩ := hraised
      simp [Invocation.run, ts3plugin_onClientMoveSubscriptionEvent, M.seq, call, DEBUG_TSIF, r1, drop_trace]
  | onClientMoveTimeoutEvent a b c d f g =>
    cases r1 : E.reply (.base (.onUpdateClientEvent a b d)) s.heap s.outside with
    | ok h1 b1 o1 =>
      simp [Invocation.run, ts3plugin_onClientMoveTimeoutEvent, M.seq, call, DEBUG_TSIF, r1,
        Outcome.final] at hfin
      subst hfin
      simp [drop_trace] at hraised
    | raise e1 h1 b1 =>
      simp [Invocation.run, ts3plugin_onClientMoveTimeoutEvent, M.seq, call, DEBUG_TSIF, r1,
        Outcome.final] at hfin
      subst hfin
      simp [drop_trace] at hraised
      obtain ⟨-, rfl⟩ := hraised
      simp [Invocation.run, ts3plugin_onClientMoveTimeoutEvent, M.seq, call, DEBUG_TSIF, r1, drop_trace]
  | onClientMoveMovedEvent a b c d f g i j k =>
    cases r1 : E.reply (.base (.onUpdateClientEvent a b d)) s.heap s.outside with
    | ok h1 b1 o1 =>
      simp [Invocation.run, ts3plugin_onClientMoveMovedEvent, M.seq, call, DEBUG_TSIF, r1,
        Outcome.final] at hfin
      subst hfin
      simp [drop_trace] at hraised
    | raise e1 h1 b1 =>
      simp [Invocation.run, ts3plugin_onClientMoveMovedEvent, M.seq, call, DEBUG_TSIF, r1,
        Outcome.final] at hfin
      subst hfin
      simp [drop_trace] at hraised
      obtain ⟨-, rfl⟩ := hraised
      simp [Invocation.run, ts3plugin_onClientMoveMovedEvent, M.seq, call, DEBUG_TSIF, r1, drop_trace]
  | onTalkStatusChangeEvent a b c d =>
    cases r1 : E.reply (.base (.onTalkStatusChangeEvent a b c d)) s.heap s.outside with
    | ok h1 b1 o1 =>
      simp [Invocation.run, ts3plugin_onTalkStatusChangeEvent, M.seq, call, DEBUG_TSIF, r1,
        Outcome.final] at hfin
      subst hfin
      simp [drop_trace] at hraised
    | raise e1 h1 b1 =>
      simp [Invocation.run, ts3plugin_onTalkStatusChangeEvent, M.seq, call, DEBUG_TSIF, r1,
        Outcome.final] at hfin
      subst hfin
      simp [drop_trace] at hraised
      obtain ⟨-, rfl⟩ := hraised
      simp [Invocation.run, ts3plugin_onTalkStatusChangeEvent, M.seq, call, DEBUG_TSIF, r1, drop_trace]
  | onMenuItemEvent a b c d =>
    cases r1 : E.reply (.base (.onMenuItemEvent a b c d)) s.heap s.outside with
    | ok h1 b1 o1 =>
      simp [Invocation.run, ts3plugin_onMenuItemEvent, M.seq, call, DEBUG_TSIF, r1,
        Outcome.final] at hfin
      subst hfin
      simp [drop_trace] at hraised
    | raise e1 h1 b1 =>
      simp [Invocation.run, ts3plugin_onMenuItemEvent, M.seq, call, DEBUG_TSIF, r1,
        Outcome.final] at hfin
      subst hfin
      simp [drop_trace] at hraised
      obtain ⟨-, rfl⟩ := hraised
      simp [Invocation.run, ts3plugin_onMenuItemEvent, M.seq, call, DEBUG_TSIF, r1, drop_trace]
  | onHotkeyEvent a =>
    cases r1 : E.reply (.base (.onHotkeyEvent a)) s.heap s.outside with
    | ok h1 b1 o1 =>
      simp [Invocation.run, ts3plugin_onHotkeyEvent, M.seq, call, DEBUG_TSIF, r1,
        Outcome.final] at hfin
      subst hfin
      simp [drop_trace] at hraised
    | raise e1 h1 b1 =>
      simp [Invocation.run, ts3plugin_onHotkeyEvent, M.seq, call, DEBUG_TSIF, r1,
        Outcome.final] at hfin
      subst hfin
      simp [drop_trace] at hraised
      obtain ⟨-, rfl⟩ := hraised
      simp [Invocation.run, ts3plugin_onHotkeyEvent, M.seq, call, DEBUG_TSIF, r1, drop_trace]

/-- The same at concrete inputs: with a `cPluginBase` whose methods all raise a
`std::exception`, `ts3plugin_shutdown` logs and returns, and
`ts3plugin_onHotkeyEvent` lets the exception through. -/
theorem forwarded_errors_witness :
    (∃ r, s_shutdown_failed.trace = s_registered.trace ++
          [(.base .Close, some (.std "plugin_base failed")),
           (.err (.error_log "ts3plugin_shutdown" (some (.std "plugin_base failed"))), r)] ∧
        s_shutdown_failed.pluginID = s_registered.pluginID ∧
        Invocation.shutdown.run E_failing s_registered =
          (match r with
           | none => .ret .void s_shutdown_failed
           | some e2 => .throw e2 s_shutdown_failed)) ∧
    ((Invocation.onHotkeyEvent none).run E_failing s_start =
        .throw (.std "plugin_base failed") s_hotkey_failed ∧
      ∀ f x r, (Call.err (.error_log f x), r) ∉
        s_hotkey_failed.trace.drop s_start.trace.length) :=
  ⟨forwarded_errors E_failing s_registered s_shutdown_failed .shutdown .Close
      (.std "plugin_base failed") (by decide) (by decide),
   forwarded_errors E_failing s_start s_hotkey_failed (.onHotkeyEvent none)
      (.onHotkeyEvent none) (.std "plugin_base failed") (by decide) (by decide)⟩

/-! ## C3: `ts3plugin_shutdown` and the registered id -/

/-- When `Close` returns and the block of the registered id is still live,
`ts3plugin_shutdown` releases the block and leaves `pluginID` NULL. -/
theorem shutdown_frees {β : Type} (E : Env β) (s : State β) (a : Addr) (h1 : Heap) (b1 : β)
    (out bytes : List Nat) (hid : s.pluginID = some a) (hoff : a.off = 0)
    (hclose : E.reply (.base .Close) s.heap s.outside = .ok h1 b1 out)
    (hlive : h1.block a.block = some bytes) :
    ∃ s', ts3plugin_shutdown E s = .ret () s' ∧ s'.pluginID = none ∧
      s'.heap = h1.erase a.block ∧ s'.heap.block a.block = none := by
  simp only [ts3plugin_shutdown, M.tryCatch, M.bind_run, M.seq, call, DEBUG_TSIF, hclose,
    ne_eq, one_ne_zero, not_false_eq_true, if_true, printf_run, getState_run, hid, c_free, free,
    hoff, hlive, Option.isSome_some, and_self, setPluginID_run, M.pure_run, reduceCtorEq]
  exact ⟨_, rfl, rfl, rfl, Heap.block_erase_self _ _⟩

/-- When no id is registered and `Close` returns, `ts3plugin_shutdown` releases
nothing: memory is as `Close` left it and `pluginID` stays NULL. -/
theorem shutdown_unregistered {β : Type} (E : Env β) (s : State β) (h1 : Heap) (b1 : β)
    (out : List Nat) (hid : s.pluginID = none)
    (hclose : E.reply (.base .Close) s.heap s.outside = .ok h1 b1 out) :
    ∃ s', ts3plugin_shutdown E s = .ret () s' ∧ s'.pluginID = none ∧ s'.heap = h1 := by
  simp only [ts3plugin_shutdown, M.tryCatch, M.bind_run, M.seq, call, DEBUG_TSIF, hclose,
    ne_eq, one_ne_zero, not_false_eq_true, if_true, printf_run, getState_run, hid,
    not_true_eq_false, if_false, M.pure_run]
  exact ⟨_, rfl, rfl, rfl⟩

/-- When `Close` raises and the handler's `error_log` returns, `ts3plugin_shutdown`
returns with `pluginID` as it was and with the memory that `error_log` left:
the statements after `Close()` in the `try` block, the `free` among them, are
skipped. -/
theorem shutdown_skips_free {β : Type} (E : Env β) (s : State β) (e : Exc) (h1 h2 : Heap)
    (b1 b2 : β) (out : List Nat)
    (hclose : E.reply (.base .Close) s.heap s.outside = .raise e h1 b1)
    (hlog : E.reply (.err (.error_log "ts3plugin_shutdown"
        (match e with
         | .unknown _ => none
         | _ => some e))) h1 b1 = .ok h2 b2 out) :
    ∃ s', ts3plugin_shutdown E s = .ret () s' ∧ s'.pluginID = s.pluginID ∧ s'.heap = h2 := by
  cases e <;>
  · simp only [ts3plugin_shutdown, M.tryCatch, handlers, M.bind_run, M.seq, call, DEBUG_TSIF,
      ne_eq, one_ne_zero, not_false_eq_true, if_true, printf_run, hclose] at hlog ⊢
    simp only [hlog, M.pure_run]
    exact ⟨_, rfl, rfl, rfl⟩

/-- C3, the code at a failing input: with the id "ts3" registered (`pluginID`
points to block 2) and a `Close` that raises a `std::exception`,
`ts3plugin_shutdown` returns with `pluginID` still pointing to block 2 and
block 2 still live; with a `Close` that returns, `pluginID` is NULL and block 2
is gone. -/
theorem shutdown_keeps_id_when_Close_raises :
    (ts3plugin_shutdown E_failing s_registered).value = some () ∧
    ((ts3plugin_shutdown E_failing s_registered).final.map
        fun s => (s.pluginID, s.heap.block 2)) =
      some (some ⟨2, 0⟩, some (ascii "ts3" ++ [0])) ∧
    ((ts3plugin_shutdown E_quiet s_registered).final.map
        fun s => (s.pluginID, s.heap.block 2)) = some (none, none) := by
  decide

/-! ## C4: the result of `ts3plugin_init` -/

theorem M.value_seq {σ α γ : Type} {m : M σ α} {f : α → M σ γ} {s : σ} {v : γ}
    (h : (M.seq m f s).value = some v) : ∃ a s1, m s = .ret a s1 ∧ (f a s1).value = some v := by
  unfold M.seq at h
  cases hm : m s with
  | ret a s1 =>
    rw [hm] at h
    exact ⟨a, s1, rfl, h⟩
  | throw e s1 =>
    rw [hm] at h
    cases h
  | undefined =>
    rw [hm] at h
    cases h

/-- Whatever the outside objects do, a value that `ts3plugin_init` returns is 0. -/
theorem init_returns_only_zero {β : Type} (E : Env β) (s : State β) (v : Int)
    (h : (ts3plugin_init E s).value = some v) : v = 0 := by
  simp only [ts3plugin_init, M.bind_run] at h
  iterate 10 obtain ⟨_, _, -, h⟩ := M.value_seq h
  simpa [Outcome.value] using h.symm

/-- C4, the code at failing inputs: when `cPluginBase.Init` raises,
`ts3plugin_init` returns nothing (the exception leaves it), and in no
surroundings and no state does it return 1. -/
theorem init_never_returns_one :
    (ts3plugin_init E_failing s_start).value = none ∧
    (∀ (β : Type) (E : Env β) (s : State β), (ts3plugin_init E s).value ≠ some 1) := by
  refine ⟨by decide, fun β E s h => ?_⟩
  have := init_returns_only_zero E s 1 h
  omega

end WM2000
